import Mathlib

/- Verification development for the `Vector2` class of
   `src/snippets/vector2.py`.

   Modelling conventions:

   * A Python `float` is modelled by `PFloat α`: a finite value carried
     exactly in a linearly ordered field `α`, positive infinity, negative
     infinity, or NaN.  Finite values are exact (no rounding, no overflow,
     no signed zero); apart from that, the arithmetic and comparison
     functions below follow the IEEE-754 rules that Python `float`
     operators implement.  Python raises `ZeroDivisionError` when the
     divisor of `/` is (plus or minus) zero, so division is fallible.
   * Claims about operator dispatch, equality and exact arithmetic are
     stated at `α := ℚ`, where everything is computable and decidable.
     Claims that involve `math.sqrt` (magnitude, normalized) are stated at
     `α := ℝ`, where `Real.sqrt` gives the exact square root.
   * A dynamically typed operand (`object` in the source) is modelled by
     `PyVal α`: a float, an int, a `Vector2`, or any other object
     identified by the name of its type.
   * Every `raise` site of the source is one constructor of `VErr`; the
     Python exception class of each site is `VErr.pyClass` and its message
     is `VErr.message` (type names are rendered bare, without Python's
     `<class ...>` decoration, which no claim depends on). -/

/-- Model of a Python `float` value: exact finite value in `α`, or one of
the IEEE special values. -/
inductive PFloat (α : Type) where
  | fin (val : α)
  | inf
  | ninf
  | nan
deriving DecidableEq

variable {α : Type} [LinearOrderedField α] [DecidableEq α]

/-- IEEE `==` on floats, as Python's `float.__eq__`: NaN is equal to
nothing, including itself. -/
def feq : PFloat α → PFloat α → Bool
  | .fin a, .fin b => decide (a = b)
  | .inf, .inf => true
  | .ninf, .ninf => true
  | _, _ => false

/-- IEEE `<=` on floats, as Python's `float.__le__`: any comparison with
NaN is false. -/
def fle : PFloat α → PFloat α → Bool
  | .nan, _ => false
  | _, .nan => false
  | .ninf, _ => true
  | _, .ninf => false
  | .fin a, .fin b => decide (a ≤ b)
  | .fin _, .inf => true
  | .inf, .inf => true
  | .inf, .fin _ => false

/-- IEEE addition, as Python's `float.__add__`. -/
def fadd : PFloat α → PFloat α → PFloat α
  | .nan, _ => .nan
  | _, .nan => .nan
  | .fin a, .fin b => .fin (a + b)
  | .fin _, .inf => .inf
  | .inf, .fin _ => .inf
  | .inf, .inf => .inf
  | .fin _, .ninf => .ninf
  | .ninf, .fin _ => .ninf
  | .ninf, .ninf => .ninf
  | .inf, .ninf => .nan
  | .ninf, .inf => .nan

/-- IEEE subtraction, as Python's `float.__sub__`. -/
def fsub : PFloat α → PFloat α → PFloat α
  | .nan, _ => .nan
  | _, .nan => .nan
  | .fin a, .fin b => .fin (a - b)
  | .fin _, .inf => .ninf
  | .fin _, .ninf => .inf
  | .inf, .fin _ => .inf
  | .ninf, .fin _ => .ninf
  | .inf, .inf => .nan
  | .inf, .ninf => .inf
  | .ninf, .inf => .ninf
  | .ninf, .ninf => .nan

/-- IEEE multiplication, as Python's `float.__mul__`: infinity times zero
is NaN, otherwise infinities keep the sign of the finite factor. -/
def fmul : PFloat α → PFloat α → PFloat α
  | .nan, _ => .nan
  | _, .nan => .nan
  | .fin a, .fin b => .fin (a * b)
  | .fin a, .inf => if 0 < a then .inf else if a < 0 then .ninf else .nan
  | .fin a, .ninf => if 0 < a then .ninf else if a < 0 then .inf else .nan
  | .inf, .fin b => if 0 < b then .inf else if b < 0 then .ninf else .nan
  | .ninf, .fin b => if 0 < b then .ninf else if b < 0 then .inf else .nan
  | .inf, .inf => .inf
  | .inf, .ninf => .ninf
  | .ninf, .inf => .ninf
  | .ninf, .ninf => .inf

/-- IEEE negation, as Python's `float.__neg__`. -/
def fneg : PFloat α → PFloat α
  | .fin a => .fin (-a)
  | .inf => .ninf
  | .ninf => .inf
  | .nan => .nan

/-- One constructor per `raise` site of `vector2.py` (plus the two raise
sites of the host runtime reachable from it: float division by a zero
divisor, and `math.sqrt` of a negative argument). -/
inductive VErr where
  | cannotNormalizeZero
  | cannotAngleZero
  | cmpTypeError (ty : String)
  | addTypeError (ty : String)
  | subTypeError (ty : String)
  | mulVectorTypeError
  | mulTypeError (ty : String)
  | divTypeError (ty : String)
  | indexError (idx : ℤ)
  | floatDivByZero
  | mathDomainError
deriving DecidableEq

/-- Python float division, as Python's `float.__truediv__`: CPython first
checks whether the divisor equals zero and raises `ZeroDivisionError` if
so (for every dividend, NaN included); otherwise the IEEE quotient is
returned. -/
def fdiv : PFloat α → PFloat α → Except VErr (PFloat α)
  | a, .fin b =>
      if b = 0 then .error .floatDivByZero
      else match a with
        | .fin a' => .ok (.fin (a' / b))
        | .inf => .ok (if 0 < b then .inf else .ninf)
        | .ninf => .ok (if 0 < b then .ninf else .inf)
        | .nan => .ok .nan
  | _, .nan => .ok .nan
  | .nan, _ => .ok .nan
  | .fin _, .inf => .ok (.fin 0)
  | .fin _, .ninf => .ok (.fin 0)
  | .inf, .inf => .ok .nan
  | .inf, .ninf => .ok .nan
  | .ninf, .inf => .ok .nan
  | .ninf, .ninf => .ok .nan

/-- The Python exception class raised at each `VErr` site, read off the
`raise` statements of the source. -/
inductive PyExcClass where
  | valueError
  | typeError
  | indexError
  | zeroDivisionError
deriving DecidableEq

/-- Which Python exception class each raise site uses in the source. -/
def VErr.pyClass : VErr → PyExcClass
  | .cannotNormalizeZero => .valueError
  | .cannotAngleZero => .valueError
  | .cmpTypeError _ => .typeError
  | .addTypeError _ => .typeError
  | .subTypeError _ => .typeError
  | .mulVectorTypeError => .typeError
  | .mulTypeError _ => .typeError
  | .divTypeError _ => .typeError
  | .indexError _ => .indexError
  | .floatDivByZero => .zeroDivisionError
  | .mathDomainError => .valueError

/-- The message of each raise site, as written in the source (operand
type names rendered bare). -/
def VErr.message : VErr → String
  | .cannotNormalizeZero => "Cannot normalize zero-vector."
  | .cannotAngleZero => "Cannot get angle of zero-vector."
  | .cmpTypeError t => "Vector2 cannot be compared to type " ++ t ++ "."
  | .addTypeError t => "Type " ++ t ++ " cannot be added to Vector2."
  | .subTypeError t => "Type " ++ t ++ " cannot be subtracted from Vector2."
  | .mulVectorTypeError =>
      "Vector products should be calculated with the Vector2.dot() method."
  | .mulTypeError t => "Vector2 cannot be multiplied by type " ++ t ++ "."
  | .divTypeError t => "Vector2 cannot be divided by type " ++ t ++ "."
  | .indexError i =>
      "Vector2 only has indicies [0, 1] for attributes [x, y], not "
        ++ toString i ++ "."
  | .floatDivByZero => "float division by zero"
  | .mathDomainError => "math domain error"

/-- The spec's error kinds (section 7 of the spec). -/
inductive SpecErrKind where
  | invalidOperation
  | typeMismatch
  | indexOutOfRange
deriving DecidableEq

/-- Modelled from the spec: section 7's error taxonomy as a classification
of the raise sites.  `InvalidOperation` covers zero-vector normalization,
zero-vector angle, zero-vector angle-between and vector-by-vector
multiplication; `TypeMismatch` covers the incompatible-operand raises;
`IndexOutOfRange` covers indexed access outside 0 and 1.  The two
host-runtime raises are outside the spec's taxonomy (`none`). -/
def VErr.specKind : VErr → Option SpecErrKind
  | .cannotNormalizeZero => some .invalidOperation
  | .cannotAngleZero => some .invalidOperation
  | .mulVectorTypeError => some .invalidOperation
  | .cmpTypeError _ => some .typeMismatch
  | .addTypeError _ => some .typeMismatch
  | .subTypeError _ => some .typeMismatch
  | .mulTypeError _ => some .typeMismatch
  | .divTypeError _ => some .typeMismatch
  | .indexError _ => some .indexOutOfRange
  | .floatDivByZero => none
  | .mathDomainError => none

/-- The immutable 2-dimensional vector of `vector2.py`: two private float
components exposed through read-only properties. -/
structure Vector2 (α : Type) where
  x : PFloat α
  y : PFloat α
deriving DecidableEq

/-- A dynamically typed operand (`object`): a float, an int, a `Vector2`,
or any other object identified by the name of its type. -/
inductive PyVal (α : Type) where
  | float (f : PFloat α)
  | int (n : ℤ)
  | vec (v : Vector2 α)
  | obj (ty : String)

/-- Name of the operand's runtime type, used in error messages. -/
def typeName : PyVal α → String
  | .float _ => "float"
  | .int _ => "int"
  | .vec _ => "Vector2"
  | .obj t => t

/-- `is_zero`: `self.__x == 0 and self.__y == 0` (Python `==`, so NaN and
infinite components are not zero). -/
def Vector2.is_zero (v : Vector2 α) : Bool :=
  feq v.x (.fin 0) && feq v.y (.fin 0)

/-- `square_magnitude`: `x*x + y*y`. -/
def Vector2.square_magnitude (v : Vector2 α) : PFloat α :=
  fadd (fmul v.x v.x) (fmul v.y v.y)

/-- `dot`: `x*other.x + y*other.y`. -/
def Vector2.dot (v w : Vector2 α) : PFloat α :=
  fadd (fmul v.x w.x) (fmul v.y w.y)

/-- `cross`: `x*other.y - y*other.x`. -/
def Vector2.cross (v w : Vector2 α) : PFloat α :=
  fsub (fmul v.x w.y) (fmul v.y w.x)

/-- `updated(x=None, y=None)`: each omitted component keeps its current
value. -/
def Vector2.updated (v : Vector2 α) (xo yo : Option (PFloat α)) : Vector2 α :=
  ⟨xo.getD v.x, yo.getD v.y⟩

/-- `__eq__`: componentwise Python `==` against another `Vector2`;
raises `TypeError` for every other operand type. -/
def Vector2.eqOp (v : Vector2 α) (o : PyVal α) : Except VErr Bool :=
  match o with
  | .vec w => .ok (feq v.x w.x && feq v.y w.y)
  | _ => .error (.cmpTypeError (typeName o))

/-- `__bool__`: returns `self.is_zero()`. -/
def Vector2.boolOp (v : Vector2 α) : Bool :=
  v.is_zero

/-- `__len__`: always 2. -/
def Vector2.lenOp (_v : Vector2 α) : ℕ := 2

/-- `__add__`: componentwise sum with another `Vector2`; raises
`TypeError` otherwise. -/
def Vector2.addOp (v : Vector2 α) (o : PyVal α) : Except VErr (Vector2 α) :=
  match o with
  | .vec w => .ok ⟨fadd v.x w.x, fadd v.y w.y⟩
  | _ => .error (.addTypeError (typeName o))

/-- `__sub__`: componentwise difference with another `Vector2`; raises
`TypeError` otherwise. -/
def Vector2.subOp (v : Vector2 α) (o : PyVal α) : Except VErr (Vector2 α) :=
  match o with
  | .vec w => .ok ⟨fsub v.x w.x, fsub v.y w.y⟩
  | _ => .error (.subTypeError (typeName o))

/-- `__mul__`: componentwise scale by a `float`; a dedicated `TypeError`
directing to `dot()` for a `Vector2` operand; a `TypeError` for every
other operand type (the source matches `float` first, then `Vector2`,
then the wildcard). -/
def Vector2.mulOp (v : Vector2 α) (o : PyVal α) : Except VErr (Vector2 α) :=
  match o with
  | .float f => .ok ⟨fmul v.x f, fmul v.y f⟩
  | .vec _ => .error .mulVectorTypeError
  | _ => .error (.mulTypeError (typeName o))

/-- `__truediv__`: componentwise float division by a `float` operand
(`self.__x / other` first, then `self.__y / other`, so a zero divisor
raises on the first component); raises `TypeError` for every other
operand type. -/
def Vector2.divOp (v : Vector2 α) (o : PyVal α) : Except VErr (Vector2 α) :=
  match o with
  | .float f =>
      match fdiv v.x f with
      | .error e => .error e
      | .ok a =>
        match fdiv v.y f with
        | .error e => .error e
        | .ok b => .ok ⟨a, b⟩
  | _ => .error (.divTypeError (typeName o))

/-- `__neg__`: componentwise negation, never fails. -/
def Vector2.negOp (v : Vector2 α) : Vector2 α :=
  ⟨fneg v.x, fneg v.y⟩

/-- `__getitem__`: index 0 is `x`, index 1 is `y`, anything else raises
`IndexError` with the offending index in the message. -/
def Vector2.getitem (v : Vector2 α) (idx : ℤ) : Except VErr (PFloat α) :=
  if idx = 0 then .ok v.x
  else if idx = 1 then .ok v.y
  else .error (.indexError idx)

/-- `__iter__`: the sequence `(x, y)`. -/
def Vector2.iterOp (v : Vector2 α) : List (PFloat α) :=
  [v.x, v.y]

/-- `__copy__`: a new instance with the same component values. -/
def Vector2.copyOp (v : Vector2 α) : Vector2 α :=
  ⟨v.x, v.y⟩

/-- Model of `math.sqrt` at exact reals: raises `ValueError` ("math
domain error") on a negative argument, maps NaN to NaN and positive
infinity to infinity, like the CPython function. -/
noncomputable def fsqrt : PFloat ℝ → Except VErr (PFloat ℝ)
  | .fin r => if r < 0 then .error .mathDomainError else .ok (.fin (Real.sqrt r))
  | .inf => .ok .inf
  | .ninf => .error .mathDomainError
  | .nan => .ok .nan

/-- `magnitude`: `sqrt(x*x + y*y)` (the source repeats the
`square_magnitude` expression inline). -/
noncomputable def Vector2.magnitude (v : Vector2 ℝ) : Except VErr (PFloat ℝ) :=
  fsqrt (fadd (fmul v.x v.x) (fmul v.y v.y))

/-- `normalized`: raises `ValueError` ("Cannot normalize zero-vector.")
when `is_zero()`, checked before the division; otherwise returns
`self / self.magnitude()`. -/
noncomputable def Vector2.normalized (v : Vector2 ℝ) : Except VErr (Vector2 ℝ) :=
  if v.is_zero then .error .cannotNormalizeZero
  else
    match v.magnitude with
    | .error e => .error e
    | .ok m => v.divOp (.float m)

/- A small object-store model, used to state that the vector-producing
   operations allocate a fresh instance and never write to an existing
   one: a `Store` is the list of all `Vector2` objects allocated so far,
   an object id is an index into it, and `Vector2(...)` in the source is
   `alloc`.  Each method reads its operands out of the store and, like
   the source (whose only field assignments are in `__init__`), never
   updates an existing entry.  A dangling id makes the modelled call
   `none`, which has no Python counterpart. -/
abbrev Store := List (Vector2 ℝ)

/-- Evaluation of the constructor call `Vector2(...)`: append the new
object and return its id. -/
def alloc (s : Store) (r : Vector2 ℝ) : Store × ℕ :=
  (s ++ [r], s.length)

/-- Allocate the result of a method call when it succeeds; propagate its
error otherwise. -/
def liftAlloc (s : Store) (r : Except VErr (Vector2 ℝ)) :
    Except VErr (Store × ℕ) :=
  r.map (alloc s)

/-- `__add__` on object ids. -/
noncomputable def addM (s : Store) (i j : ℕ) : Option (Except VErr (Store × ℕ)) :=
  match s[i]?, s[j]? with
  | some v, some w => some (liftAlloc s (v.addOp (.vec w)))
  | _, _ => none

/-- `__sub__` on object ids. -/
noncomputable def subM (s : Store) (i j : ℕ) : Option (Except VErr (Store × ℕ)) :=
  match s[i]?, s[j]? with
  | some v, some w => some (liftAlloc s (v.subOp (.vec w)))
  | _, _ => none

/-- `__mul__` by a float scalar on an object id. -/
noncomputable def mulM (s : Store) (i : ℕ) (f : PFloat ℝ) :
    Option (Except VErr (Store × ℕ)) :=
  match s[i]? with
  | some v => some (liftAlloc s (v.mulOp (.float f)))
  | none => none

/-- `__truediv__` by a float scalar on an object id. -/
noncomputable def divM (s : Store) (i : ℕ) (f : PFloat ℝ) :
    Option (Except VErr (Store × ℕ)) :=
  match s[i]? with
  | some v => some (liftAlloc s (v.divOp (.float f)))
  | none => none

/-- `__neg__` on an object id. -/
noncomputable def negM (s : Store) (i : ℕ) : Option (Except VErr (Store × ℕ)) :=
  match s[i]? with
  | some v => some (liftAlloc s (.ok v.negOp))
  | none => none

/-- `normalized` on an object id. -/
noncomputable def normalizedM (s : Store) (i : ℕ) :
    Option (Except VErr (Store × ℕ)) :=
  match s[i]? with
  | some v => some (liftAlloc s v.normalized)
  | none => none

/-- `updated` on an object id. -/
noncomputable def updatedM (s : Store) (i : ℕ) (xo yo : Option (PFloat ℝ)) :
    Option (Except VErr (Store × ℕ)) :=
  match s[i]? with
  | some v => some (liftAlloc s (.ok (v.updated xo yo)))
  | none => none

/-- `__copy__` on an object id. -/
noncomputable def copyM (s : Store) (i : ℕ) : Option (Except VErr (Store × ℕ)) :=
  match s[i]? with
  | some v => some (liftAlloc s (.ok v.copyOp))
  | none => none

/-- What it means for a store-level call on store `s` to have returned a
fresh object `k` without touching the existing ones: the result id is the
next free id, every previously allocated object is unchanged, and the
result id holds a (new) object. -/
def FreshAlloc (s s' : Store) (k : ℕ) : Prop :=
  k = List.length s ∧
  List.length s' = List.length s + 1 ∧
  (∀ m, m < List.length s → s'[m]? = s[m]?) ∧
  ∃ u, s'[k]? = some u

/- Theorems.  Claims about operator dispatch, equality, indexing and
   exact arithmetic are stated at `α := ℚ` (every IEEE double is a
   rational, so the quantifiers range over a superset of the actual float
   values, NaN and the infinities included); claims involving `math.sqrt`
   are stated at `α := ℝ`. -/

/-- A float compares equal to `0.0` under Python `==` exactly when it is
the finite value zero. -/
theorem feq_fin_zero_iff (c : PFloat α) : feq c (.fin 0) = true ↔ c = .fin 0 := by
  cases c <;> simp [feq]

/-- C3: multiplying by a float scalar scales componentwise; multiplying
by another `Vector2` fails with the dedicated error directing the caller
to `dot()` (an `InvalidOperation` in the spec's section-7 taxonomy, a
`TypeError` at runtime); multiplying by any other operand type fails with
the generic multiplication `TypeError` (a `TypeMismatch` in the spec's
taxonomy). -/
theorem mul_dispatch_spec :
    (∀ (v : Vector2 ℚ) (f : PFloat ℚ),
      v.mulOp (.float f) = .ok ⟨fmul v.x f, fmul v.y f⟩) ∧
    (∀ v w : Vector2 ℚ, v.mulOp (.vec w) = .error .mulVectorTypeError) ∧
    VErr.specKind .mulVectorTypeError = some .invalidOperation ∧
    VErr.message .mulVectorTypeError =
      "Vector products should be calculated with the Vector2.dot() method." ∧
    VErr.pyClass .mulVectorTypeError = .typeError ∧
    (∀ (v : Vector2 ℚ) (n : ℤ),
      v.mulOp (.int n) = .error (.mulTypeError "int")) ∧
    (∀ (v : Vector2 ℚ) (t : String),
      v.mulOp (.obj t) = .error (.mulTypeError t)) ∧
    (∀ t, VErr.specKind (.mulTypeError t) = some .typeMismatch) :=
  ⟨fun _ _ => rfl, fun _ _ => rfl, rfl, rfl, rfl,
   fun _ _ => rfl, fun _ _ => rfl, fun _ => rfl⟩

/-- C4: equality against another `Vector2` is the conjunction of the
componentwise IEEE `==` comparisons (so a NaN component makes a vector
unequal to itself), and comparison against a float, an int or any other
non-`Vector2` operand fails with the comparison `TypeError`, a
`TypeMismatch` in the spec's taxonomy, instead of returning false. -/
theorem eq_dispatch_spec :
    (∀ a b : Vector2 ℚ, a.eqOp (.vec b) = .ok (feq a.x b.x && feq a.y b.y)) ∧
    (∀ c : PFloat ℚ, (Vector2.mk .nan c).eqOp (.vec ⟨.nan, c⟩) = .ok false) ∧
    (∀ (a : Vector2 ℚ) (f : PFloat ℚ),
      a.eqOp (.float f) = .error (.cmpTypeError "float")) ∧
    (∀ (a : Vector2 ℚ) (n : ℤ),
      a.eqOp (.int n) = .error (.cmpTypeError "int")) ∧
    (∀ (a : Vector2 ℚ) (t : String),
      a.eqOp (.obj t) = .error (.cmpTypeError t)) ∧
    (∀ t, VErr.specKind (.cmpTypeError t) = some .typeMismatch) ∧
    (∀ t, VErr.pyClass (.cmpTypeError t) = .typeError) :=
  ⟨fun _ _ => rfl, fun _ => rfl, fun _ _ => rfl, fun _ _ => rfl,
   fun _ _ => rfl, fun _ => rfl, fun _ => rfl⟩

/-- C5: indexed access with 0 returns `x`, with 1 returns `y`, and with
any other integer fails with the `IndexError` raise site, whose spec kind
is `IndexOutOfRange` and whose message contains the offending index. -/
theorem getitem_spec :
    (∀ v : Vector2 ℚ, v.getitem 0 = .ok v.x ∧ v.getitem 1 = .ok v.y) ∧
    (∀ (v : Vector2 ℚ) (i : ℤ), i ≠ 0 → i ≠ 1 →
      v.getitem i = .error (.indexError i) ∧
      VErr.specKind (.indexError i) = some .indexOutOfRange ∧
      ∃ pre post, VErr.message (.indexError i) = pre ++ toString i ++ post) := by
  constructor
  · intro v
    exact ⟨rfl, rfl⟩
  · intro v i h0 h1
    exact ⟨by simp [Vector2.getitem, h0, h1], rfl, ⟨_, _, rfl⟩⟩

/-- C5 witness: index 2 on the vector (1, 2). -/
theorem getitem_witness :
    (2 : ℤ) ≠ 0 ∧ (2 : ℤ) ≠ 1 ∧
    (Vector2.getitem (⟨.fin 1, .fin 2⟩ : Vector2 ℚ) 2 = .error (.indexError 2) ∧
      VErr.specKind (.indexError 2) = some .indexOutOfRange ∧
      ∃ pre post, VErr.message (.indexError 2) = pre ++ toString (2 : ℤ) ++ post) :=
  ⟨by decide, by decide,
   getitem_spec.2 ⟨.fin 1, .fin 2⟩ 2 (by decide) (by decide)⟩

/-- C9: boolean conversion returns `is_zero()`, so it is `True` exactly
when both components equal `0.0` — the zero vector is the truthy one. -/
theorem bool_returns_is_zero :
    ∀ v : Vector2 ℚ, v.boolOp = v.is_zero ∧
      (v.boolOp = true ↔ v.x = .fin 0 ∧ v.y = .fin 0) := by
  intro v
  refine ⟨rfl, ?_⟩
  simp [Vector2.boolOp, Vector2.is_zero, Bool.and_eq_true, feq_fin_zero_iff]

/-- C10: multiplying or dividing by a value of exact `int` type is
rejected with the corresponding `TypeError` (spec kind `TypeMismatch`),
because the scalar dispatch only matches `float`; multiplying by the
float `2.0` succeeds. -/
theorem int_scalar_rejected :
    (∀ (v : Vector2 ℚ) (n : ℤ),
      v.mulOp (.int n) = .error (.mulTypeError "int") ∧
      v.divOp (.int n) = .error (.divTypeError "int")) ∧
    (∀ v : Vector2 ℚ,
      v.mulOp (.float (.fin 2)) = .ok ⟨fmul v.x (.fin 2), fmul v.y (.fin 2)⟩) ∧
    (∀ t, VErr.specKind (.mulTypeError t) = some .typeMismatch ∧
      VErr.specKind (.divTypeError t) = some .typeMismatch) :=
  ⟨fun _ _ => ⟨rfl, rfl⟩, fun _ => rfl, fun _ => ⟨rfl, rfl⟩⟩

/-- C2 counterexample: dividing the vector (1, 2) by the scalar `0.0`
does not propagate an IEEE infinity or NaN — it fails, with the
`ZeroDivisionError` that Python float division raises on a zero
divisor. -/
theorem truediv_zero_divisor_raises :
    Vector2.divOp (⟨.fin 1, .fin 2⟩ : Vector2 ℚ) (.float (.fin 0)) =
      .error .floatDivByZero ∧
    VErr.pyClass .floatDivByZero = .zeroDivisionError := by
  constructor
  · simp [Vector2.divOp, fdiv]
  · rfl

/-- Dividing any float by a nonzero finite float equals multiplying it
by the reciprocal, NaN and infinite dividends included (the reciprocal
of a nonzero finite value keeps its sign, so the infinite cases
agree). -/
theorem fdiv_fin_eq_fmul_inv (c : PFloat ℚ) (a : ℚ) (ha : a ≠ 0) :
    fdiv c (.fin a) = .ok (fmul c (.fin a⁻¹)) := by
  cases c with
  | fin x => simp [fdiv, fmul, ha, div_eq_mul_inv]
  | nan => simp [fdiv, fmul, ha]
  | inf =>
      rcases ha.lt_or_lt with h | h
      · have h1 : ¬ (0 < a) := not_lt.mpr h.le
        have h2 : a⁻¹ < 0 := inv_lt_zero.mpr h
        simp [fdiv, fmul, ha, h1, h2, not_lt.mpr h2.le]
      · have h2 : 0 < a⁻¹ := inv_pos.mpr h
        simp [fdiv, fmul, ha, h, h2]
  | ninf =>
      rcases ha.lt_or_lt with h | h
      · have h1 : ¬ (0 < a) := not_lt.mpr h.le
        have h2 : a⁻¹ < 0 := inv_lt_zero.mpr h
        simp [fdiv, fmul, ha, h1, h2, not_lt.mpr h2.le]
      · have h2 : 0 < a⁻¹ := inv_pos.mpr h
        simp [fdiv, fmul, ha, h, h2]

/-- C2 (amended): dividing any vector — NaN and infinite components
included — by a nonzero finite scalar returns the componentwise scaling
by its reciprocal; dividing by a zero scalar fails with
`ZeroDivisionError`, raised by float division itself — the method adds
no guard of its own — rather than producing Infinity/NaN; any non-float
operand fails with the division `TypeError`. -/
theorem truediv_scalar_spec :
    (∀ (v : Vector2 ℚ) (a : ℚ), a ≠ 0 →
      v.divOp (.float (.fin a)) =
        .ok ⟨fmul v.x (.fin a⁻¹), fmul v.y (.fin a⁻¹)⟩) ∧
    (∀ v : Vector2 ℚ, v.divOp (.float (.fin 0)) = .error .floatDivByZero) ∧
    (∀ (v : Vector2 ℚ) (n : ℤ),
      v.divOp (.int n) = .error (.divTypeError "int")) ∧
    (∀ (v : Vector2 ℚ) (t : String),
      v.divOp (.obj t) = .error (.divTypeError t)) := by
  refine ⟨?_, ?_, fun _ _ => rfl, fun _ _ => rfl⟩
  · intro v a ha
    simp [Vector2.divOp, fdiv_fin_eq_fmul_inv v.x a ha,
      fdiv_fin_eq_fmul_inv v.y a ha]
  · intro v
    simp [Vector2.divOp, fdiv]

/-- C2 witness: dividing (1, 2) by the nonzero scalar 3. -/
theorem truediv_scalar_witness :
    (3 : ℚ) ≠ 0 ∧
    Vector2.divOp (⟨.fin 1, .fin 2⟩ : Vector2 ℚ) (.float (.fin 3)) =
      .ok ⟨fmul (.fin 1) (.fin 3⁻¹), fmul (.fin 2) (.fin 3⁻¹)⟩ :=
  ⟨by norm_num, truediv_scalar_spec.1 ⟨.fin 1, .fin 2⟩ 3 (by norm_num)⟩

/-- A float that is not NaN satisfies `c * 2.0 == c + c` under IEEE
semantics. -/
theorem feq_fmul_two_fadd_self (c : PFloat ℚ) (hc : c ≠ .nan) :
    feq (fmul c (.fin 2)) (fadd c c) = true := by
  cases c with
  | fin q =>
      simp only [fmul, fadd, feq, decide_eq_true_eq]
      ring
  | inf => norm_num [fmul, fadd, feq]
  | ninf => norm_num [fmul, fadd, feq]
  | nan => exact absurd rfl hc

/-- C6 counterexample: for the vector a = (NaN, 0), `a * 2.0 == a + a`
evaluates to `False`, because the NaN components of the two (identical)
results compare unequal under IEEE `==`. -/
theorem mul_two_nan_not_eq_add_self :
    Vector2.mulOp (⟨.nan, .fin 0⟩ : Vector2 ℚ) (.float (.fin 2)) =
      .ok ⟨.nan, .fin 0⟩ ∧
    Vector2.addOp (⟨.nan, .fin 0⟩ : Vector2 ℚ) (.vec ⟨.nan, .fin 0⟩) =
      .ok ⟨.nan, .fin 0⟩ ∧
    Vector2.eqOp (⟨.nan, .fin 0⟩ : Vector2 ℚ) (.vec ⟨.nan, .fin 0⟩) =
      .ok false := by
  refine ⟨?_, ?_, rfl⟩
  · norm_num [Vector2.mulOp, fmul]
  · norm_num [Vector2.addOp, fadd]

/-- C6 (amended): for every vector a without NaN components, `a * 2.0`
and `a + a` succeed and compare structurally equal. -/
theorem mul_two_eq_add_self :
    ∀ a : Vector2 ℚ, a.x ≠ .nan → a.y ≠ .nan →
      ∃ p q, a.mulOp (.float (.fin 2)) = .ok p ∧
        a.addOp (.vec a) = .ok q ∧ p.eqOp (.vec q) = .ok true := by
  intro a hx hy
  refine ⟨_, _, rfl, rfl, ?_⟩
  simp [Vector2.eqOp, feq_fmul_two_fadd_self a.x hx, feq_fmul_two_fadd_self a.y hy]

/-- C6 witness: the vector (1, 2). -/
theorem mul_two_eq_add_self_witness :
    (⟨.fin 1, .fin 2⟩ : Vector2 ℚ).x ≠ .nan ∧
    (⟨.fin 1, .fin 2⟩ : Vector2 ℚ).y ≠ .nan ∧
    ∃ p q, Vector2.mulOp (⟨.fin 1, .fin 2⟩ : Vector2 ℚ) (.float (.fin 2)) = .ok p ∧
      Vector2.addOp (⟨.fin 1, .fin 2⟩ : Vector2 ℚ) (.vec ⟨.fin 1, .fin 2⟩) = .ok q ∧
      p.eqOp (.vec q) = .ok true :=
  ⟨by decide, by decide,
   mul_two_eq_add_self ⟨.fin 1, .fin 2⟩ (by decide) (by decide)⟩

/-- C7 counterexample: the vector (NaN, 0) — constructible, since the
constructor does not validate — has magnitude NaN, and `NaN >= 0.0` is
false under IEEE comparison. -/
theorem magnitude_nan_not_nonneg :
    Vector2.magnitude ⟨.nan, .fin 0⟩ = .ok .nan ∧
    fle (.fin 0) (.nan : PFloat ℝ) = false :=
  ⟨rfl, rfl⟩

/-- C7 (amended): for every vector whose components are not NaN
(infinite components are allowed), the magnitude is computed without
error and is `>= 0.0` under IEEE comparison; a NaN component instead
yields a NaN magnitude, which is not `>= 0.0`. -/
theorem magnitude_nonneg :
    ∀ v : Vector2 ℝ, v.x ≠ .nan → v.y ≠ .nan →
      ∃ m, v.magnitude = .ok m ∧ fle (.fin 0) m = true := by
  intro v hx hy
  obtain ⟨x, y⟩ := v
  cases x with
  | nan => exact absurd rfl hx
  | inf =>
      cases y with
      | nan => exact absurd rfl hy
      | fin b => exact ⟨.inf, rfl, rfl⟩
      | inf => exact ⟨.inf, rfl, rfl⟩
      | ninf => exact ⟨.inf, rfl, rfl⟩
  | ninf =>
      cases y with
      | nan => exact absurd rfl hy
      | fin b => exact ⟨.inf, rfl, rfl⟩
      | inf => exact ⟨.inf, rfl, rfl⟩
      | ninf => exact ⟨.inf, rfl, rfl⟩
  | fin a =>
      cases y with
      | nan => exact absurd rfl hy
      | inf => exact ⟨.inf, rfl, rfl⟩
      | ninf => exact ⟨.inf, rfl, rfl⟩
      | fin b =>
          refine ⟨.fin (Real.sqrt (a * a + b * b)), ?_, ?_⟩
          · show fsqrt (.fin (a * a + b * b)) = _
            rw [fsqrt, if_neg]
            push_neg
            nlinarith [mul_self_nonneg a, mul_self_nonneg b]
          · simp [fle, Real.sqrt_nonneg]

/-- C7 witness: the vector (Infinity, 0), whose magnitude is Infinity
and hence `>= 0.0`. -/
theorem magnitude_nonneg_witness :
    (Vector2.mk .inf (.fin 0) : Vector2 ℝ).x ≠ .nan ∧
    (Vector2.mk .inf (.fin 0) : Vector2 ℝ).y ≠ .nan ∧
    ∃ m, Vector2.magnitude ⟨.inf, .fin 0⟩ = .ok m ∧ fle (.fin 0) m = true :=
  ⟨fun h => PFloat.noConfusion h, fun h => PFloat.noConfusion h,
   magnitude_nonneg ⟨.inf, .fin 0⟩ (fun h => PFloat.noConfusion h)
     (fun h => PFloat.noConfusion h)⟩

/-- A vector with finite components that is not `is_zero` has a strictly
positive sum of component squares. -/
theorem sum_sq_pos_of_not_zero {a b : ℝ}
    (h : Vector2.is_zero (⟨.fin a, .fin b⟩ : Vector2 ℝ) = false) :
    0 < a * a + b * b := by
  simp only [Vector2.is_zero, feq, Bool.and_eq_false_iff,
    decide_eq_false_iff_not] at h
  rcases h with h | h
  · nlinarith [mul_self_nonneg b, mul_self_pos.mpr h]
  · nlinarith [mul_self_nonneg a, mul_self_pos.mpr h]

/-- `magnitude` always succeeds, and on a vector that is not `is_zero`
its value is never the finite zero (so the division in `normalized`
cannot hit a zero divisor). -/
theorem magnitude_ok_cases (v : Vector2 ℝ) :
    ∃ m, v.magnitude = .ok m ∧
      (v.is_zero = false → ∀ c : ℝ, m = .fin c → c ≠ 0) := by
  obtain ⟨x, y⟩ := v
  cases x <;> cases y <;>
    try exact ⟨_, rfl, fun _ c hc => PFloat.noConfusion hc⟩
  case fin.fin a b =>
    refine ⟨.fin (Real.sqrt (a * a + b * b)), ?_, ?_⟩
    · show fsqrt (.fin (a * a + b * b)) = _
      rw [fsqrt, if_neg]
      push_neg
      nlinarith [mul_self_nonneg a, mul_self_nonneg b]
    · intro hz c hc
      injection hc with hc'
      subst hc'
      exact Real.sqrt_ne_zero'.mpr (sum_sq_pos_of_not_zero hz)

/-- Python float division never raises when the divisor is not the
finite zero. -/
theorem fdiv_ok (a m : PFloat ℝ) (h : ∀ c : ℝ, m = .fin c → c ≠ 0) :
    ∃ r, fdiv a m = .ok r := by
  cases m with
  | fin c =>
      have hc := h c rfl
      cases a <;> simp [fdiv, hc]
  | inf => cases a <;> exact ⟨_, rfl⟩
  | ninf => cases a <;> exact ⟨_, rfl⟩
  | nan => cases a <;> exact ⟨_, rfl⟩

/-- Division of a vector by a float scalar that is not the finite zero
succeeds. -/
theorem divOp_float_ok (v : Vector2 ℝ) (m : PFloat ℝ)
    (h : ∀ c : ℝ, m = .fin c → c ≠ 0) :
    ∃ w, v.divOp (.float m) = .ok w := by
  obtain ⟨r1, h1⟩ := fdiv_ok v.x m h
  obtain ⟨r2, h2⟩ := fdiv_ok v.y m h
  exact ⟨⟨r1, r2⟩, by simp [Vector2.divOp, h1, h2]⟩

/-- C1 counterexample: the vector (Infinity, 0) is not `is_zero`, so the
claim asserts its normalization has magnitude 1.0 — but normalizing it
yields (NaN, 0), whose magnitude is NaN, which is not 1.0 under IEEE
comparison (nor within any tolerance of it). -/
theorem normalized_inf_magnitude_not_one :
    Vector2.is_zero (⟨.inf, .fin 0⟩ : Vector2 ℝ) = false ∧
    Vector2.normalized ⟨.inf, .fin 0⟩ = .ok ⟨.nan, .fin 0⟩ ∧
    Vector2.magnitude ⟨.nan, .fin 0⟩ = .ok .nan ∧
    feq (.nan : PFloat ℝ) (.fin 1) = false ∧
    (PFloat.nan : PFloat ℝ) ≠ .fin 1 :=
  ⟨rfl, rfl, rfl, rfl, fun h => PFloat.noConfusion h⟩

/-- C1 (amended): `normalized` fails, with the `ValueError` raise site
whose spec kind is `InvalidOperation`, exactly when `is_zero()` — the
zero check runs before any division, so the zero vector gets this error
and not a `ZeroDivisionError`; every non-zero vector yields
`self / self.magnitude()` without error; and when the components are
finite the result's magnitude is exactly 1 in the exact-real model
(i.e. 1.0 within floating-point tolerance).  For non-finite non-zero
vectors the division still succeeds but the result's magnitude is NaN,
not 1. -/
theorem normalized_spec :
    ∀ v : Vector2 ℝ,
      (v.is_zero = true → v.normalized = .error .cannotNormalizeZero ∧
        VErr.specKind .cannotNormalizeZero = some .invalidOperation) ∧
      (v.is_zero = false →
        ∃ m w, v.magnitude = .ok m ∧ v.normalized = v.divOp (.float m) ∧
          v.normalized = .ok w) ∧
      (∀ a b : ℝ, v = ⟨.fin a, .fin b⟩ → v.is_zero = false →
        ∃ w, v.normalized = .ok w ∧ w.magnitude = .ok (.fin 1)) := by
  intro v
  refine ⟨?_, ?_, ?_⟩
  · intro h
    refine ⟨?_, rfl⟩
    rw [Vector2.normalized, h]
    simp
  · intro h
    obtain ⟨m, hm, hnz⟩ := magnitude_ok_cases v
    obtain ⟨w, hw⟩ := divOp_float_ok v m (hnz h)
    have hbranch : v.normalized = v.divOp (.float m) := by
      rw [Vector2.normalized, h]
      simp only [Bool.false_eq_true, if_false]
      rw [hm]
    exact ⟨m, w, hm, hbranch, hbranch.trans hw⟩
  · intro a b hv hz
    subst hv
    have hpos : 0 < a * a + b * b := sum_sq_pos_of_not_zero hz
    have hs : Real.sqrt (a * a + b * b) ≠ 0 := Real.sqrt_ne_zero'.mpr hpos
    have hmag : (⟨.fin a, .fin b⟩ : Vector2 ℝ).magnitude =
        .ok (.fin (Real.sqrt (a * a + b * b))) := by
      show fsqrt (.fin (a * a + b * b)) = _
      rw [fsqrt, if_neg (not_lt.mpr hpos.le)]
    have hdx : fdiv (.fin a) (.fin (Real.sqrt (a * a + b * b))) =
        .ok (.fin (a / Real.sqrt (a * a + b * b))) := by
      simp [fdiv, hs]
    have hdy : fdiv (.fin b) (.fin (Real.sqrt (a * a + b * b))) =
        .ok (.fin (b / Real.sqrt (a * a + b * b))) := by
      simp [fdiv, hs]
    refine ⟨⟨.fin (a / Real.sqrt (a * a + b * b)),
      .fin (b / Real.sqrt (a * a + b * b))⟩, ?_, ?_⟩
    · rw [Vector2.normalized, hz]
      simp only [Bool.false_eq_true, if_false]
      rw [hmag]
      simp only [Vector2.divOp, hdx, hdy]
    · have hss : Real.sqrt (a * a + b * b) * Real.sqrt (a * a + b * b) =
          a * a + b * b := Real.mul_self_sqrt hpos.le
      have hone : a / Real.sqrt (a * a + b * b) * (a / Real.sqrt (a * a + b * b)) +
          b / Real.sqrt (a * a + b * b) * (b / Real.sqrt (a * a + b * b)) = 1 := by
        have hexp : a / Real.sqrt (a * a + b * b) * (a / Real.sqrt (a * a + b * b)) +
            b / Real.sqrt (a * a + b * b) * (b / Real.sqrt (a * a + b * b)) =
            (a * a + b * b) /
              (Real.sqrt (a * a + b * b) * Real.sqrt (a * a + b * b)) := by
          ring
        rw [hexp, hss, div_self (ne_of_gt hpos)]
      show fsqrt (.fin _) = _
      rw [hone, fsqrt, if_neg (by norm_num), Real.sqrt_one]

/-- C1 witness: normalizing the vector (3, 4) succeeds and the result
has magnitude exactly 1. -/
theorem normalized_witness :
    Vector2.is_zero (⟨.fin 3, .fin 4⟩ : Vector2 ℝ) = false ∧
    ∃ w, Vector2.normalized ⟨.fin 3, .fin 4⟩ = .ok w ∧
      Vector2.magnitude w = .ok (.fin 1) :=
  have hz : Vector2.is_zero (⟨.fin 3, .fin 4⟩ : Vector2 ℝ) = false := by
    norm_num [Vector2.is_zero, feq]
  ⟨hz, (normalized_spec ⟨.fin 3, .fin 4⟩).2.2 3 4 rfl hz⟩

/-- A successful `liftAlloc` call is exactly a fresh allocation: the
result id is the next free one and all previously allocated objects keep
their values. -/
theorem liftAlloc_fresh {s x : Store} {k : ℕ} {r : Except VErr (Vector2 ℝ)}
    (h : liftAlloc s r = .ok (x, k)) : FreshAlloc s x k := by
  cases r with
  | error e => simp [liftAlloc, Except.map] at h
  | ok u =>
      simp only [liftAlloc, Except.map, alloc] at h
      injection h with h'
      rw [Prod.mk.injEq] at h'
      obtain ⟨hx, hk⟩ := h'
      subst hx
      subst hk
      refine ⟨rfl, by simp, ?_, ⟨u, ?_⟩⟩
      · intro m hm
        rw [List.getElem?_append, if_pos hm]
      · exact List.getElem?_concat_length s u

/-- C8: every vector-producing operation of the public interface —
add, subtract, multiply, divide, negate, normalized, updated, copy —
when it succeeds, returns a freshly allocated `Vector2` (its id is new)
and leaves every previously allocated object, its operand(s) included,
with its original component values. -/
theorem ops_allocate_fresh_and_preserve :
    (∀ s i j x k, addM s i j = some (.ok (x, k)) → FreshAlloc s x k) ∧
    (∀ s i j x k, subM s i j = some (.ok (x, k)) → FreshAlloc s x k) ∧
    (∀ s i f x k, mulM s i f = some (.ok (x, k)) → FreshAlloc s x k) ∧
    (∀ s i f x k, divM s i f = some (.ok (x, k)) → FreshAlloc s x k) ∧
    (∀ s i x k, negM s i = some (.ok (x, k)) → FreshAlloc s x k) ∧
    (∀ s i x k, normalizedM s i = some (.ok (x, k)) → FreshAlloc s x k) ∧
    (∀ s i xo yo x k, updatedM s i xo yo = some (.ok (x, k)) → FreshAlloc s x k) ∧
    (∀ s i x k, copyM s i = some (.ok (x, k)) → FreshAlloc s x k) := by
  refine ⟨?_, ?_, ?_, ?_, ?_, ?_, ?_, ?_⟩
  · intro s i j x k h
    unfold addM at h
    split at h
    · injection h with h'
      exact liftAlloc_fresh h'
    · exact Option.noConfusion h
  · intro s i j x k h
    unfold subM at h
    split at h
    · injection h with h'
      exact liftAlloc_fresh h'
    · exact Option.noConfusion h
  · intro s i f x k h
    unfold mulM at h
    split at h
    · injection h with h'
      exact liftAlloc_fresh h'
    · exact Option.noConfusion h
  · intro s i f x k h
    unfold divM at h
    split at h
    · injection h with h'
      exact liftAlloc_fresh h'
    · exact Option.noConfusion h
  · intro s i x k h
    unfold negM at h
    split at h
    · injection h with h'
      exact liftAlloc_fresh h'
    · exact Option.noConfusion h
  · intro s i x k h
    unfold normalizedM at h
    split at h
    · injection h with h'
      exact liftAlloc_fresh h'
    · exact Option.noConfusion h
  · intro s i xo yo x k h
    unfold updatedM at h
    split at h
    · injection h with h'
      exact liftAlloc_fresh h'
    · exact Option.noConfusion h
  · intro s i x k h
    unfold copyM at h
    split at h
    · injection h with h'
      exact liftAlloc_fresh h'
    · exact Option.noConfusion h

/-- C8 witness: adding the two objects of a two-object store allocates
the result at the fresh id 2 and preserves both operands. -/
theorem ops_allocate_fresh_witness :
    addM [⟨.inf, .nan⟩, ⟨.ninf, .inf⟩] 0 1 =
      some (.ok ([⟨.inf, .nan⟩, ⟨.ninf, .inf⟩, ⟨.nan, .nan⟩], 2)) ∧
    FreshAlloc [⟨.inf, .nan⟩, ⟨.ninf, .inf⟩]
      [⟨.inf, .nan⟩, ⟨.ninf, .inf⟩, ⟨.nan, .nan⟩] 2 :=
  ⟨rfl, ops_allocate_fresh_and_preserve.1 _ 0 1 _ 2 rfl⟩
